import Mathlib

/-!
# GameArena leaderboard engine — verification development

Shallow embedding of the backend leaderboard service
(`backend/services/leaderboardService.js`, `backend/config/redis.js`,
`backend/jobs/workers.js`, `backend/controllers/leaderboardController.js`)
over the Prisma/PostgreSQL data model
(`users`, `game_sessions`, `leaderboards` tables).

Tables are lists of rows; the `leaderboards.user_id` column carries a unique
index (migration `leaderboards_user_id_key`), so upserts are modelled as
first-match update.  Redis is a list of key/value pairs (TTLs are not
modelled; no claim here depends on expiry).  Asynchronous effects that can
fail (cache invalidation, BullMQ enqueue) are driven by explicit outcome
flags so that the post-commit error handling can be stated.
-/

namespace GameArena

/-- A row of the `users` table: `id`, `username` (join metadata only). -/
structure User where
  id : Nat
  username : String
deriving Repr, DecidableEq

/-- A row of the `game_sessions` table: `user_id`, `score`, `game_mode`.
Scores are stored in an `INTEGER` column, embedded as `Int`. -/
structure GameSession where
  userId : Nat
  score : Int
  gameMode : String
deriving Repr, DecidableEq

/-- A row of the `leaderboards` table: unique `user_id`, `total_score`,
and the nullable `rank` column. -/
structure LeaderboardRow where
  userId : Nat
  totalScore : Int
  rank : Option Nat
deriving Repr, DecidableEq

/-- The durable relational state: the three tables. -/
structure DBState where
  users : List User
  sessions : List GameSession
  leaderboards : List LeaderboardRow
deriving Repr, DecidableEq

def dbEmpty : DBState := { users := [], sessions := [], leaderboards := [] }

/-- `tx.user.upsert` in `submitScore`: no-op update when the id exists,
otherwise create `(id, "user_" ++ id)`. -/
def upsertUser (us : List User) (uid : Nat) : List User :=
  if us.any (fun u => u.id = uid) then us
  else us ++ [{ id := uid, username := "user_" ++ toString uid }]

/-- `tx.gameSession.aggregate` with `_sum.score` over `where userId`,
followed by `|| 0` for the null (empty) case: the sum of the player's
session scores. -/
def sessionSum (ss : List GameSession) (uid : Nat) : Int :=
  (ss.filter (fun s => s.userId = uid)).foldl (fun a s => a + s.score) 0

/-- `tx.leaderboards.upsert` on the unique `userId` key: update
`totalScore` of the existing row (keeping `rank`), or create a fresh row
with null `rank`. -/
def upsertLeaderboard (ls : List LeaderboardRow) (uid : Nat) (total : Int) :
    List LeaderboardRow :=
  match ls with
  | [] => [{ userId := uid, totalScore := total, rank := none }]
  | r :: rs =>
    if r.userId = uid then { r with totalScore := total } :: rs
    else r :: upsertLeaderboard rs uid total

/-- Lookup of the aggregate row by the unique `userId` key. -/
def lookupBoard (ls : List LeaderboardRow) (uid : Nat) : Option LeaderboardRow :=
  ls.find? (fun r => r.userId = uid)

/-- The object returned by the `prisma.$transaction` callback in
`submitScore`: `\x7b gameSession, leaderboardEntry, totalScore \x7d`. -/
structure TxResult where
  gameSession : GameSession
  leaderboardEntry : LeaderboardRow
  totalScore : Int
deriving Repr, DecidableEq

/-- The transactional body of `submitScore` (service layer): upsert the
user, insert the session, recompute the total as a sum over all of the
player's sessions, and upsert the aggregate row to that sum. -/
def submitScoreTx (st : DBState) (uid : Nat) (score : Int) (mode : String) :
    TxResult × DBState :=
  let users := upsertUser st.users uid
  let gs : GameSession := { userId := uid, score := score, gameMode := mode }
  let sessions := st.sessions ++ [gs]
  let total := sessionSum sessions uid
  let boards := upsertLeaderboard st.leaderboards uid total
  let entry : LeaderboardRow :=
    match lookupBoard st.leaderboards uid with
    | some r => { r with totalScore := total }
    | none => { userId := uid, totalScore := total, rank := none }
  ({ gameSession := gs, leaderboardEntry := entry, totalScore := total },
   { users := users, sessions := sessions, leaderboards := boards })

/-- Sequential execution of a list of `(playerId, score, mode)`
submissions, threading the database state. -/
def runSubmissions (st : DBState) (subs : List (Nat × Int × String)) : DBState :=
  subs.foldl (fun s p => (submitScoreTx s p.1 p.2.1 p.2.2).2) st

theorem lookupBoard_upsert (ls : List LeaderboardRow) (uid : Nat) (t : Int) :
    ∃ r, lookupBoard (upsertLeaderboard ls uid t) uid = some r ∧
      r.userId = uid ∧ r.totalScore = t := by
  induction ls with
  | nil =>
    refine ⟨{ userId := uid, totalScore := t, rank := none }, ?_, rfl, rfl⟩
    simp [upsertLeaderboard, lookupBoard]
  | cons r rs ih =>
    by_cases h : r.userId = uid
    · refine ⟨{ r with totalScore := t }, ?_, h, rfl⟩
      simp [upsertLeaderboard, lookupBoard, h]
    · obtain ⟨r', hfind, hid, ht⟩ := ih
      refine ⟨r', ?_, hid, ht⟩
      simpa [upsertLeaderboard, lookupBoard, h] using hfind

/-! ## Cache tier, queue, and the full service functions -/

/-- A row of the formatted Top-N response
(`userId, username, totalScore, rank` in `getTopPlayers`). -/
structure TopRow where
  userId : Nat
  username : String
  totalScore : Int
  rank : Nat
deriving Repr, DecidableEq

/-- The result object of `getPlayerRank`:
`userId, username, totalScore, rank, totalPlayers`. -/
structure RankResult where
  userId : Nat
  username : String
  totalScore : Int
  rank : Nat
  totalPlayers : Nat
deriving Repr, DecidableEq

/-- A value stored in Redis (after `JSON.parse`): either a Top-N list or a
per-player rank snapshot. -/
inductive CacheVal where
  | topList : List TopRow → CacheVal
  | rankVal : RankResult → CacheVal
deriving Repr, DecidableEq

/-- `CACHE_KEYS.TOP_LEADERBOARD` in `config/redis.js`: a single constant
key, independent of the requested limit. -/
def TOP_LEADERBOARD_KEY : String := "leaderboard:top10"

/-- `CACHE_KEYS.USER_RANK(userId)`. -/
def USER_RANK_KEY (uid : Nat) : String := "leaderboard:rank:" ++ toString uid

/-- `CACHE_KEYS.USER_SCORE(userId)`. -/
def USER_SCORE_KEY (uid : Nat) : String := "leaderboard:score:" ++ toString uid

/-- The Redis keyspace: an association list of keys to parsed values.
TTLs are not modelled. -/
abbrev Cache := List (String × CacheVal)

/-- `redis.get`. -/
def cacheGet (c : Cache) (k : String) : Option CacheVal :=
  (c.find? (fun e => e.1 = k)).map (fun e => e.2)

/-- `redis.setex` (the TTL argument is dropped in the model). -/
def cacheSetex (c : Cache) (k : String) (v : CacheVal) : Cache :=
  (k, v) :: c.filter (fun e => e.1 ≠ k)

/-- `redis.del`. -/
def cacheDel (c : Cache) (k : String) : Cache :=
  c.filter (fun e => e.1 ≠ k)

/-- Outcomes of the fallible external effects during one `submitScore`
call, plus the `RANK_RECALCULATION_ENABLED` environment flag. -/
structure Effects where
  leaderboardCacheFail : Bool
  userCacheFail : Bool
  enqueueFail : Bool
  rankRecalculationEnabled : Bool
deriving Repr, DecidableEq

/-- The data of a BullMQ rank-recalculation job. A missing key of the JS
object literal destructures to `undefined`, i.e. `false`/`none` here. -/
structure RankJob where
  userId : Option Nat
  fullRecalculation : Bool
  incremental : Bool
deriving Repr, DecidableEq

/-- Full system state: database, Redis cache, and the job queue. -/
structure SysState where
  db : DBState
  cache : Cache
  queue : List RankJob
deriving Repr, DecidableEq

def sysEmpty : SysState := { db := dbEmpty, cache := [], queue := [] }

/-- The `AppError` class of `middleware/errorHandler.js`. -/
structure AppError where
  message : String
  statusCode : Nat
deriving Repr, DecidableEq

/-- `invalidateLeaderboardCache` (`config/redis.js`): deletes the Top-N
key; a Redis failure is caught and logged inside the function, so it never
throws and leaves the cache as is. -/
def invalidateLeaderboardCache (eff : Effects) (c : Cache) : Cache :=
  if eff.leaderboardCacheFail then c else cacheDel c TOP_LEADERBOARD_KEY

/-- `invalidateUserCache` (`config/redis.js`): deletes the rank and score
keys of the player; failures are likewise caught internally. -/
def invalidateUserCache (eff : Effects) (uid : Nat) (c : Cache) : Cache :=
  if eff.userCacheFail then c
  else cacheDel (cacheDel c (USER_RANK_KEY uid)) (USER_SCORE_KEY uid)

/-- `addRankRecalculationJob` (`config/queues.js`): appends a job to the
queue, or rejects when the queue backend fails. -/
def addRankRecalculationJob (eff : Effects) (q : List RankJob) (job : RankJob) :
    Except AppError (List RankJob) :=
  if eff.enqueueFail then
    Except.error { message := "enqueue failed", statusCode := 500 }
  else Except.ok (q ++ [job])

/-- A field of the transaction-result object, as seen through JavaScript
property access. -/
inductive TxField where
  | sessionField : GameSession → TxField
  | rowField : LeaderboardRow → TxField
  | numField : Int → TxField
deriving Repr, DecidableEq

/-- JavaScript property access on the object literal
`\x7b gameSession, leaderboardEntry, totalScore \x7d` returned by the
transaction: any other key yields `undefined` (`none`). -/
def txResultGet (r : TxResult) (key : String) : Option TxField :=
  if key = "gameSession" then some (TxField.sessionField r.gameSession)
  else if key = "leaderboardEntry" then some (TxField.rowField r.leaderboardEntry)
  else if key = "totalScore" then some (TxField.numField r.totalScore)
  else none

/-- The full service-layer `submitScore`: run the transaction, fire both
cache invalidations via `Promise.allSettled` (their rejections are
discarded), then — when `RANK_RECALCULATION_ENABLED === 'true'` — `await`
the enqueue *inside* the surrounding `try`, so an enqueue rejection is
caught and rethrown as `AppError('Failed to submit score. Please try
again.', 500)`.  The function finally returns `result.leaderboardsEntry`,
a property access with a misspelled key. -/
def submitScore (st : SysState) (uid : Nat) (score : Int) (mode : String)
    (eff : Effects) : Except AppError (Option TxField) × SysState :=
  let txr := (submitScoreTx st.db uid score mode).1
  let db1 := (submitScoreTx st.db uid score mode).2
  let c1 := invalidateUserCache eff uid (invalidateLeaderboardCache eff st.cache)
  if eff.rankRecalculationEnabled then
    match addRankRecalculationJob eff st.queue
        { userId := some uid, fullRecalculation := false, incremental := true } with
    | Except.error _ =>
      (Except.error { message := "Failed to submit score. Please try again.",
                      statusCode := 500 },
       { db := db1, cache := c1, queue := st.queue })
    | Except.ok q1 =>
      (Except.ok (txResultGet txr "leaderboardsEntry"),
       { db := db1, cache := c1, queue := q1 })
  else
    (Except.ok (txResultGet txr "leaderboardsEntry"),
     { db := db1, cache := c1, queue := st.queue })

/-! ## Read paths and rank recomputation -/

/-- The number of rows of a leaderboard list whose `totalScore` strictly
exceeds `t`.  SQL `RANK() OVER (ORDER BY total_score DESC)` assigns to a
row exactly this count plus one, and the correlated subquery of
`getPlayerRank` computes the same count plus one directly. -/
def countGreater (ls : List LeaderboardRow) (t : Int) : Nat :=
  (ls.filter (fun r => t < r.totalScore)).length

/-- `INNER JOIN users u ON l.user_id = u.id`. -/
def joinUsers (st : DBState) : List (LeaderboardRow × User) :=
  st.leaderboards.filterMap
    (fun r => (st.users.find? (fun u => u.id = r.userId)).map (fun u => (r, u)))

/-- Count over the joined row set (the window of the Top-N query). -/
def countGreaterJoined (l : List (LeaderboardRow × User)) (t : Int) : Nat :=
  (l.filter (fun p => t < p.1.totalScore)).length

/-- Stable insertion for `ORDER BY total_score DESC` (ties keep table
order; SQL leaves tie order unspecified, and no claim depends on it). -/
def insertByScoreDesc (p : LeaderboardRow × User) :
    List (LeaderboardRow × User) → List (LeaderboardRow × User)
  | [] => [p]
  | q :: qs =>
    if q.1.totalScore < p.1.totalScore then p :: q :: qs
    else q :: insertByScoreDesc p qs

def sortByScoreDesc (l : List (LeaderboardRow × User)) :
    List (LeaderboardRow × User) :=
  l.foldr insertByScoreDesc []

/-- The raw Top-N SQL of `getTopPlayers`: join, order by `total_score`
descending, `RANK()` window, `LIMIT`. -/
def topQuery (st : DBState) (limit : Nat) : List TopRow :=
  let joined := sortByScoreDesc (joinUsers st)
  (joined.map (fun p =>
    { userId := p.1.userId, username := p.2.username,
      totalScore := p.1.totalScore,
      rank := countGreaterJoined joined p.1.totalScore + 1 })).take limit

/-- `getTopPlayers(limit)`: read the single constant cache key; on a hit
return the parsed cached list unchanged, on a miss run the query, cache
the formatted rows under the same constant key, and return them. -/
def getTopPlayers (st : SysState) (limit : Nat) : List TopRow × SysState :=
  match cacheGet st.cache TOP_LEADERBOARD_KEY with
  | some (CacheVal.topList l) => (l, st)
  | _ =>
    let rows := topQuery st.db limit
    (rows,
     { st with cache := cacheSetex st.cache TOP_LEADERBOARD_KEY (CacheVal.topList rows) })

/-- The raw per-player SQL of `getPlayerRank`: the player's aggregate row
joined with `users`, rank as `COUNT(*) + 1` over rows with strictly
greater `total_score`, and the total row count of `leaderboards`. -/
def rankQuery (st : DBState) (uid : Nat) : Option RankResult :=
  match lookupBoard st.leaderboards uid with
  | none => none
  | some r =>
    match st.users.find? (fun u => u.id = r.userId) with
    | none => none
    | some u =>
      some { userId := r.userId, username := u.username,
             totalScore := r.totalScore,
             rank := countGreater st.leaderboards r.totalScore + 1,
             totalPlayers := st.leaderboards.length }

/-- The cache-miss path of `getPlayerRank`: an empty query result raises
`AppError('Player not found in leaderboards', 404)` *before* any cache
write; otherwise the result is cached under the player's rank key and
returned. -/
def getPlayerRankMiss (st : SysState) (uid : Nat) :
    Except AppError RankResult × SysState :=
  match rankQuery st.db uid with
  | none =>
    (Except.error { message := "Player not found in leaderboards",
                    statusCode := 404 }, st)
  | some res =>
    (Except.ok res,
     { st with cache := cacheSetex st.cache (USER_RANK_KEY uid) (CacheVal.rankVal res) })

/-- `getPlayerRank(userId)`: a cache hit returns the cached snapshot
unchanged, anything else goes to the store. -/
def getPlayerRank (st : SysState) (uid : Nat) :
    Except AppError RankResult × SysState :=
  match cacheGet st.cache (USER_RANK_KEY uid) with
  | some (CacheVal.rankVal v) => (Except.ok v, st)
  | _ => getPlayerRankMiss st uid

/-- The single `UPDATE ... FROM (SELECT user_id, RANK() OVER (ORDER BY
total_score DESC) ...)` statement of `recalculateAllRanks`: every row's
`rank` becomes one plus the number of rows with strictly greater
`total_score` (the defining property of SQL `RANK()`). -/
def recalculateAllRanksDB (st : DBState) : DBState :=
  { st with leaderboards := st.leaderboards.map (fun r =>
      { r with rank := some (countGreater st.leaderboards r.totalScore + 1) }) }

/-- The full `recalculateAllRanks` service call: the ranking update
followed by Top-N cache invalidation. -/
def recalculateAllRanks (eff : Effects) (st : SysState) : SysState :=
  { st with db := recalculateAllRanksDB st.db,
            cache := invalidateLeaderboardCache eff st.cache }

/-- One job execution of `rankRecalculationWorker` (`jobs/workers.js`):
the `fullRecalculation` branch runs `recalculateAllRanks`; the
`incremental && userId` branch only logs, every other branch does
nothing — in both of the latter cases the state is untouched. -/
def rankRecalculationWorkerStep (eff : Effects) (st : SysState) (job : RankJob) :
    SysState :=
  if job.fullRecalculation then recalculateAllRanks eff st
  else st

/-! ## Read-committed interleaving of two submit transactions

`submitScore` runs its transaction with `isolationLevel: 'ReadCommitted'`
and no row lock.  Under read committed each statement sees the data
committed at the time it runs plus the transaction's own buffered writes;
a transaction's writes become visible to others at commit.  The program
counter walks the statements of the transaction body: 0 — user upsert,
1 — session insert, 2 — aggregate sum, 3 — leaderboard upsert and commit
(the upsert's write is only visible at commit, so the two are collapsed;
the schedules considered here never interleave another statement between
them).  A concurrently created user row commits with conflict-skip
semantics. -/

/-- The options literal passed to `prisma.$transaction` in `submitScore`. -/
structure TransactionOptions where
  isolationLevel : String
  timeout : Nat
deriving Repr, DecidableEq

def submitTransactionOptions : TransactionOptions :=
  { isolationLevel := "ReadCommitted", timeout := 30000 }

/-- Buffered, not yet committed writes of one in-flight transaction. -/
structure TxBuf where
  pc : Nat
  userBuf : List User
  sessionBuf : List GameSession
  totalBuf : Option Int
deriving Repr, DecidableEq

def txBufInit : TxBuf := { pc := 0, userBuf := [], sessionBuf := [], totalBuf := none }

/-- One statement of the submit transaction under read committed. -/
def txStepRC (committed : DBState) (b : TxBuf) (uid : Nat) (score : Int)
    (mode : String) : DBState × TxBuf :=
  match b.pc with
  | 0 =>
    if (committed.users ++ b.userBuf).any (fun u => u.id = uid) then
      (committed, { b with pc := 1 })
    else
      (committed,
       { b with pc := 1
                userBuf := b.userBuf ++ [{ id := uid, username := "user_" ++ toString uid }] })
  | 1 =>
    (committed,
     { b with pc := 2
              sessionBuf := b.sessionBuf ++ [{ userId := uid, score := score, gameMode := mode }] })
  | 2 =>
    (committed,
     { b with pc := 3
              totalBuf := some (sessionSum (committed.sessions ++ b.sessionBuf) uid) })
  | 3 =>
    ({ users := committed.users ++
        b.userBuf.filter (fun u => ¬ committed.users.any (fun v => v.id = u.id)),
       sessions := committed.sessions ++ b.sessionBuf,
       leaderboards := upsertLeaderboard committed.leaderboards uid (b.totalBuf.getD 0) },
     { b with pc := 4 })
  | _ => (committed, b)

/-- Run two concurrent submit transactions under a given interleaving:
`true` steps transaction A, `false` steps transaction B. -/
def runTwoTxRC (st : DBState) (argsA argsB : Nat × Int × String)
    (sched : List Bool) : DBState :=
  (sched.foldl (fun acc pick =>
      if pick then
        let s := txStepRC acc.1 acc.2.1 argsA.1 argsA.2.1 argsA.2.2
        (s.1, s.2, acc.2.2)
      else
        let s := txStepRC acc.1 acc.2.2 argsB.1 argsB.2.1 argsB.2.2
        (s.1, acc.2.1, s.2))
    (st, txBufInit, txBufInit)).1

/-! ## Concrete states and effect environments used in witnesses -/

/-- All external effects succeed; rank recalculation disabled (the default
when `RANK_RECALCULATION_ENABLED` is unset). -/
def effAllOk : Effects :=
  { leaderboardCacheFail := false, userCacheFail := false, enqueueFail := false,
    rankRecalculationEnabled := false }

/-- Rank recalculation enabled and the queue backend failing. -/
def effEnqueueFail : Effects :=
  { leaderboardCacheFail := false, userCacheFail := false, enqueueFail := true,
    rankRecalculationEnabled := true }

/-- Three players with totals 10, 10, 5: a two-way tie above a third. -/
def dbTie : DBState :=
  { users := [{ id := 1, username := "u1" }, { id := 2, username := "u2" },
              { id := 3, username := "u3" }],
    sessions := [],
    leaderboards := [{ userId := 1, totalScore := 10, rank := none },
                     { userId := 2, totalScore := 10, rank := none },
                     { userId := 3, totalScore := 5, rank := none }] }

/-- Two players whose `rank` column is still null. -/
def dbStale : DBState :=
  { users := [{ id := 1, username := "u1" }, { id := 2, username := "u2" }],
    sessions := [],
    leaderboards := [{ userId := 1, totalScore := 10, rank := none },
                     { userId := 2, totalScore := 20, rank := none }] }

def sysStale : SysState := { db := dbStale, cache := [], queue := [] }

/-- The job payload `submitScore` enqueues. -/
def incrementalJob1 : RankJob :=
  { userId := some 1, fullRecalculation := false, incremental := true }

/-- Two ranked players with distinct totals. -/
def dbTwo : DBState :=
  { users := [{ id := 1, username := "alice" }, { id := 2, username := "bob" }],
    sessions := [],
    leaderboards := [{ userId := 1, totalScore := 20, rank := some 1 },
                     { userId := 2, totalScore := 10, rank := some 2 }] }

def sysTwo : SysState := { db := dbTwo, cache := [], queue := [] }

/-- Interleaving: A and B each run user-upsert, session-insert and
aggregate-sum before either commits; then A commits, then B. -/
def schedLostUpdate : List Bool :=
  [true, true, true, false, false, false, true, false]

/-! ## Claim theorems -/

/-- C1: for every player and every sequence of submissions executed one
after another, after each successful submit the submitting player's
aggregate row exists and its `totalScore` equals the sum of the scores of
all of that player's sessions (the just-inserted one included), because
the transaction recomputes the total as a sum over all sessions rather
than adding incrementally. -/
theorem submit_totalScore_is_sessionSum (st : DBState)
    (subs : List (Nat × Int × String)) (uid : Nat) (score : Int) (mode : String) :
    ∃ r, lookupBoard
        (submitScoreTx (runSubmissions st subs) uid score mode).2.leaderboards uid = some r ∧
      r.totalScore =
        sessionSum (submitScoreTx (runSubmissions st subs) uid score mode).2.sessions uid := by
  obtain ⟨r, h1, _, h3⟩ :=
    lookupBoard_upsert (runSubmissions st subs).leaderboards uid
      (sessionSum ((runSubmissions st subs).sessions ++
        [{ userId := uid, score := score, gameMode := mode }]) uid)
  exact ⟨r, h1, h3⟩

/-- C2 (code bug): a valid submission commits and the transaction result
does carry the fresh aggregate row under the key `leaderboardEntry`, but
the service returns `result.leaderboardsEntry` — a misspelled property —
so the caller receives `undefined` (`none`) instead of an object with the
player id and the freshly computed totalScore. -/
theorem submitScore_returns_undefined_entry :
    (submitScore sysEmpty 1 10 "solo" effAllOk).1 = Except.ok none ∧
    txResultGet (submitScoreTx dbEmpty 1 10 "solo").1 "leaderboardEntry" =
      some (TxField.rowField { userId := 1, totalScore := 10, rank := none }) := by
  exact ⟨rfl, rfl⟩

/-- C3 counterexample: with rank recalculation enabled, a rejection of the
post-commit enqueue of the recomputation job is caught by `submitScore`'s
surrounding try/catch and rethrown as a 500 `AppError`, so a submission
whose transaction committed (the database already holds the session and
the aggregate row) is reported as failed. -/
theorem submit_enqueue_failure_reported_failed :
    (submitScore sysEmpty 1 10 "solo" effEnqueueFail).1 =
      Except.error { message := "Failed to submit score. Please try again.",
                     statusCode := 500 } ∧
    (submitScore sysEmpty 1 10 "solo" effEnqueueFail).2.db =
      (submitScoreTx dbEmpty 1 10 "solo").2 := by
  exact ⟨rfl, rfl⟩

/-- C3 amended: the two cache invalidations run under
`Promise.allSettled` (and swallow errors internally), so their failure
never fails the submission; but when rank recalculation is enabled a
failure of the enqueue side effect makes `submitScore` report the 500
`AppError`, although in every case the committed session and aggregate
state equal the transaction's result and are not rolled back. -/
theorem submit_postCommit_effects (st : SysState) (uid : Nat) (score : Int)
    (mode : String) (eff : Effects) :
    (eff.rankRecalculationEnabled = true → eff.enqueueFail = true →
      (submitScore st uid score mode eff).1 =
        Except.error { message := "Failed to submit score. Please try again.",
                       statusCode := 500 }) ∧
    (eff.rankRecalculationEnabled = false ∨ eff.enqueueFail = false →
      (submitScore st uid score mode eff).1 =
        Except.ok (txResultGet (submitScoreTx st.db uid score mode).1
          "leaderboardsEntry")) ∧
    (submitScore st uid score mode eff).2.db =
      (submitScoreTx st.db uid score mode).2 := by
  unfold submitScore addRankRecalculationJob
  cases hre : eff.rankRecalculationEnabled <;>
    cases hef : eff.enqueueFail <;>
      simp [hre, hef]

/-- Witness for the amended C3 statement at a concrete failing enqueue. -/
theorem submit_postCommit_effects_witness :
    (submitScore sysEmpty 2 5 "solo" effEnqueueFail).1 =
      Except.error { message := "Failed to submit score. Please try again.",
                     statusCode := 500 } :=
  (submit_postCommit_effects sysEmpty 2 5 "solo" effEnqueueFail).1 rfl rfl

/-- C4 (code bug): the submit transaction runs at `ReadCommitted` (the
literal options of `prisma.$transaction`) with no row lock; under the
exhibited interleaving two concurrent submissions of score 1 for the same
fresh player both record their session, yet the final `totalScore` is 1 —
fewer than the sum 2 that the claimed locking/serializable guarantee
requires. -/
theorem readCommitted_lost_update :
    submitTransactionOptions.isolationLevel = "ReadCommitted" ∧
    (runTwoTxRC dbEmpty (1, 1, "solo") (1, 1, "solo") schedLostUpdate).leaderboards =
      [{ userId := 1, totalScore := 1, rank := none }] ∧
    sessionSum (runTwoTxRC dbEmpty (1, 1, "solo") (1, 1, "solo") schedLostUpdate).sessions 1 = 2 := by
  exact ⟨rfl, rfl, rfl⟩

/-- C5 counterexample: on totals 10, 10, 5 the full recomputation assigns
ranks 1, 1, 3: the players with the next distinct lower totalScore get
rank 3, not the dense rank 2, because the SQL uses `RANK()` (competition
ranking) rather than `DENSE_RANK()`. -/
theorem recalculateAllRanks_gap :
    ((recalculateAllRanksDB dbTie).leaderboards.map (fun r => r.rank)) =
      [some 1, some 1, some 3] ∧
    ((recalculateAllRanksDB dbTie).leaderboards.map (fun r => r.rank)) ≠
      [some 1, some 1, some 2] := by
  exact ⟨rfl, by decide⟩

/-- C5 amended: after a full rank recomputation the ranking is
competition-style, not dense: every row's rank equals 1 + the number of
players with strictly greater totalScore, so any two players with equal
totalScore receive equal rank, but after a group of t tied players the
next distinct lower totalScore receives that rank + t (a gap whenever
t > 1). -/
theorem recalculateAllRanks_competition_ranking (st : DBState)
    (r s : LeaderboardRow)
    (hr : r ∈ (recalculateAllRanksDB st).leaderboards)
    (hs : s ∈ (recalculateAllRanksDB st).leaderboards) :
    r.rank = some (countGreater st.leaderboards r.totalScore + 1) ∧
    (r.totalScore = s.totalScore → r.rank = s.rank) := by
  simp only [recalculateAllRanksDB, List.mem_map] at hr hs
  obtain ⟨a, _, rfl⟩ := hr
  obtain ⟨b, _, rfl⟩ := hs
  refine ⟨rfl, fun h => ?_⟩
  have h' : a.totalScore = b.totalScore := h
  show some (countGreater st.leaderboards a.totalScore + 1) =
    some (countGreater st.leaderboards b.totalScore + 1)
  rw [h']

/-- Witness for the amended C5 statement on the concrete tied table. -/
theorem recalculateAllRanks_competition_ranking_witness :
    ({ userId := 1, totalScore := 10, rank := some 1 } : LeaderboardRow).rank =
      some (countGreater dbTie.leaderboards
        ({ userId := 1, totalScore := 10, rank := some 1 } : LeaderboardRow).totalScore + 1) ∧
    (({ userId := 1, totalScore := 10, rank := some 1 } : LeaderboardRow).totalScore =
        ({ userId := 2, totalScore := 10, rank := some 1 } : LeaderboardRow).totalScore →
      ({ userId := 1, totalScore := 10, rank := some 1 } : LeaderboardRow).rank =
        ({ userId := 2, totalScore := 10, rank := some 1 } : LeaderboardRow).rank) :=
  recalculateAllRanks_competition_ranking dbTie _ _ (by decide) (by decide)

/-- C6 (code bug): the worker's incremental branch only logs: processing
an incremental recomputation job leaves the whole system state — in
particular the player's `rank` column — unchanged, even though the
count-strictly-greater rule prescribes rank 2 for player 1 here. -/
theorem incremental_recalculation_noop :
    rankRecalculationWorkerStep effAllOk sysStale incrementalJob1 = sysStale ∧
    lookupBoard
        (rankRecalculationWorkerStep effAllOk sysStale incrementalJob1).db.leaderboards 1 =
      some { userId := 1, totalScore := 10, rank := none } ∧
    countGreater dbStale.leaderboards 10 + 1 = 2 := by
  exact ⟨rfl, rfl, rfl⟩

/-- C7 (code bug): the Top-N cache is stored under the single constant
key `leaderboard:top10`, not keyed by the requested N: after `getTop(1)`
is served and cached, `getTop(2)` is answered from that cache and returns
one row although the table holds two players (the uncached top-2 query
returns both). -/
theorem getTopPlayers_shared_cache_key :
    (getTopPlayers sysTwo 1).1.length = 1 ∧
    (getTopPlayers (getTopPlayers sysTwo 1).2 2).1.length = 1 ∧
    (topQuery dbTwo 2).length = 2 := by
  exact ⟨rfl, rfl, rfl⟩

/-! ## Helper lemmas for the read paths and ranking -/

theorem length_filter_mono {α : Type} (p q : α → Bool) (l : List α)
    (hpq : ∀ x, p x = true → q x = true) :
    (l.filter p).length ≤ (l.filter q).length := by
  induction l with
  | nil => simp
  | cons x xs ih =>
    simp only [List.filter_cons]
    by_cases hp : p x = true
    · rw [if_pos hp, if_pos (hpq x hp)]
      simp only [List.length_cons]
      omega
    · rw [if_neg hp]
      by_cases hq : q x = true
      · rw [if_pos hq]
        simp only [List.length_cons]
        omega
      · rw [if_neg hq]
        exact ih

theorem countGreater_anti (ls : List LeaderboardRow) (tB tA : Int)
    (h : tB < tA) : countGreater ls tA ≤ countGreater ls tB := by
  apply length_filter_mono
  intro r hr
  have h' : tA < r.totalScore := by simpa using hr
  simpa using lt_trans h h'

theorem getPlayerRank_cache_miss (st : SysState) (uid : Nat)
    (h : cacheGet st.cache (USER_RANK_KEY uid) = none) :
    getPlayerRank st uid = getPlayerRankMiss st uid := by
  unfold getPlayerRank
  rw [h]

theorem getPlayerRank_cache_wrongtype (st : SysState) (uid : Nat)
    (l : List TopRow)
    (h : cacheGet st.cache (USER_RANK_KEY uid) = some (CacheVal.topList l)) :
    getPlayerRank st uid = getPlayerRankMiss st uid := by
  unfold getPlayerRank
  rw [h]

theorem getPlayerRank_cache_hit (st : SysState) (uid : Nat) (r : RankResult)
    (h : cacheGet st.cache (USER_RANK_KEY uid) = some (CacheVal.rankVal r)) :
    getPlayerRank st uid = (Except.ok r, st) := by
  unfold getPlayerRank
  rw [h]

theorem getPlayerRankMiss_notFound (st : SysState) (uid : Nat)
    (h : rankQuery st.db uid = none) :
    getPlayerRankMiss st uid =
      (Except.error { message := "Player not found in leaderboards",
                      statusCode := 404 }, st) := by
  unfold getPlayerRankMiss
  rw [h]

theorem getPlayerRankMiss_found (st : SysState) (uid : Nat) (res : RankResult)
    (h : rankQuery st.db uid = some res) :
    getPlayerRankMiss st uid =
      (Except.ok res,
       { st with cache := cacheSetex st.cache (USER_RANK_KEY uid)
                   (CacheVal.rankVal res) }) := by
  unfold getPlayerRankMiss
  rw [h]

/-! ## Claim theorems C8 - C10 -/

/-- C8: on a per-player cache miss, and given the foreign-key integrity of
`leaderboards.user_id` (every aggregate row references an existing user,
as the schema's constraint guarantees), `getPlayerRank` reports the 404
"Player not found in leaderboards" error exactly when the player has no
aggregate row, and otherwise returns the player's id, username,
totalScore, rank = 1 + the count of players with strictly greater
totalScore, and the total player count. -/
theorem getPlayerRank_contract (st : SysState) (uid : Nat)
    (hmiss : cacheGet st.cache (USER_RANK_KEY uid) = none)
    (hfk : ∀ r ∈ st.db.leaderboards, ∃ u ∈ st.db.users, u.id = r.userId) :
    ((getPlayerRank st uid).1 =
        Except.error { message := "Player not found in leaderboards",
                       statusCode := 404 } ↔
      lookupBoard st.db.leaderboards uid = none) ∧
    (∀ r, lookupBoard st.db.leaderboards uid = some r →
      ∃ u, st.db.users.find? (fun x => x.id = r.userId) = some u ∧
        (getPlayerRank st uid).1 = Except.ok
          { userId := r.userId, username := u.username,
            totalScore := r.totalScore,
            rank := countGreater st.db.leaderboards r.totalScore + 1,
            totalPlayers := st.db.leaderboards.length }) := by
  rw [getPlayerRank_cache_miss st uid hmiss]
  cases hl : lookupBoard st.db.leaderboards uid with
  | none =>
    have hq : rankQuery st.db uid = none := by
      unfold rankQuery
      rw [hl]
    rw [getPlayerRankMiss_notFound st uid hq]
    refine ⟨by simp, fun r hr => ?_⟩
    exact absurd hr (by simp)
  | some r0 =>
    have hmem : r0 ∈ st.db.leaderboards := List.mem_of_find?_eq_some hl
    have hu : (st.db.users.find? (fun x => x.id = r0.userId)).isSome = true := by
      rw [List.find?_isSome]
      obtain ⟨u, hu1, hu2⟩ := hfk r0 hmem
      exact ⟨u, hu1, by simp [hu2]⟩
    obtain ⟨u0, hu0⟩ := Option.isSome_iff_exists.mp hu
    have hq : rankQuery st.db uid = some
        { userId := r0.userId, username := u0.username,
          totalScore := r0.totalScore,
          rank := countGreater st.db.leaderboards r0.totalScore + 1,
          totalPlayers := st.db.leaderboards.length } := by
      unfold rankQuery
      simp only [hl, hu0]
    rw [getPlayerRankMiss_found st uid _ hq]
    refine ⟨by simp, fun r hr => ?_⟩
    injection hr with hr'
    subst hr'
    exact ⟨u0, hu0, by simp⟩

/-- Witness for C8 on a concrete two-player state with an empty cache. -/
theorem getPlayerRank_contract_witness :
    ((getPlayerRank sysTwo 1).1 =
        Except.error { message := "Player not found in leaderboards",
                       statusCode := 404 } ↔
      lookupBoard sysTwo.db.leaderboards 1 = none) :=
  (getPlayerRank_contract sysTwo 1 rfl (by decide)).1

/-- C9: after a full rank recomputation, any two players A and B with
totalScore(A) > totalScore(B) both have a set rank column and
rank(A) ≤ rank(B). -/
theorem recalc_rank_monotone (st : DBState) (a b : LeaderboardRow)
    (ha : a ∈ (recalculateAllRanksDB st).leaderboards)
    (hb : b ∈ (recalculateAllRanksDB st).leaderboards)
    (hgt : b.totalScore < a.totalScore) :
    a.rank.isSome = true ∧ b.rank.isSome = true ∧
      a.rank.getD 0 ≤ b.rank.getD 0 := by
  simp only [recalculateAllRanksDB, List.mem_map] at ha hb
  obtain ⟨a0, _, rfl⟩ := ha
  obtain ⟨b0, _, rfl⟩ := hb
  refine ⟨rfl, rfl, ?_⟩
  have h : b0.totalScore < a0.totalScore := hgt
  have hc := countGreater_anti st.leaderboards b0.totalScore a0.totalScore h
  simpa using Nat.add_le_add_right hc 1

/-- Witness for C9 on the concrete tied table. -/
theorem recalc_rank_monotone_witness :
    ({ userId := 1, totalScore := 10, rank := some 1 } : LeaderboardRow).rank.isSome = true ∧
    ({ userId := 3, totalScore := 5, rank := some 3 } : LeaderboardRow).rank.isSome = true ∧
    ({ userId := 1, totalScore := 10, rank := some 1 } : LeaderboardRow).rank.getD 0 ≤
      ({ userId := 3, totalScore := 5, rank := some 3 } : LeaderboardRow).rank.getD 0 :=
  recalc_rank_monotone dbTie _ _ (by decide) (by decide) (by decide)

/-- C10: `getPlayerRank` writes the per-player cache only after a
successful lookup: whenever it reports an error (NotFound included), the
entire system state — the cache in particular — is returned unchanged, so
a later call for the same player queries the store afresh instead of
being served a cached absence. -/
theorem getPlayerRank_error_state_unchanged (st : SysState) (uid : Nat)
    (e : AppError) (h : (getPlayerRank st uid).1 = Except.error e) :
    (getPlayerRank st uid).2 = st := by
  cases hc : cacheGet st.cache (USER_RANK_KEY uid) with
  | none =>
    rw [getPlayerRank_cache_miss st uid hc] at h ⊢
    cases hq : rankQuery st.db uid with
    | none => rw [getPlayerRankMiss_notFound st uid hq]
    | some res =>
      rw [getPlayerRankMiss_found st uid res hq] at h
      exact absurd h (by simp)
  | some v =>
    cases v with
    | rankVal r =>
      rw [getPlayerRank_cache_hit st uid r hc] at h
      exact absurd h (by simp)
    | topList l =>
      rw [getPlayerRank_cache_wrongtype st uid l hc] at h ⊢
      cases hq : rankQuery st.db uid with
      | none => rw [getPlayerRankMiss_notFound st uid hq]
      | some res =>
        rw [getPlayerRankMiss_found st uid res hq] at h
        exact absurd h (by simp)

/-- Witness for C10: a NotFound lookup on the empty state leaves it
untouched. -/
theorem getPlayerRank_error_state_unchanged_witness :
    (getPlayerRank sysEmpty 1).2 = sysEmpty :=
  getPlayerRank_error_state_unchanged sysEmpty 1
    { message := "Player not found in leaderboards", statusCode := 404 } rfl

end GameArena
